import Mathlib

/-!
Verification of the mdt-genai repository: a shallow embedding in Lean 4 of the
two command-line scripts `src/chatgpt.py` and `src/gemini.py`, and proofs of
the specified properties of their control flow (model resolution, file upload,
poll-until-done run loop, prompt chaining, resource cleanup).

Python strings are modelled by `String`; the Python string operations used by
the scripts (`str.endswith`, `str.format` with the single named field
`transcript`) are modelled by executable functions on the character list of
the string, so that concrete instances evaluate by `decide`.
-/

namespace MdtGenai

/-! ## Python string primitives used by the scripts -/

/-- Python `s.endswith(suffix)`. -/
def pyEndsWith (s suffix : String) : Bool :=
  suffix.data.isSuffixOf s.data

/-- Auxiliary fuel-indexed recursion for `pyFormat`: replace every occurrence
of `pat` in the character list by `rep`, scanning left to right.  The fuel is
always instantiated with the length of the list, which suffices because each
step consumes at least one character. -/
def pyFormatAux (pat rep : List Char) : Nat → List Char → List Char
  | 0, l => l
  | _ + 1, [] => []
  | fuel + 1, c :: rest =>
    if pat ≠ [] ∧ pat.isPrefixOf (c :: rest) then
      rep ++ pyFormatAux pat rep fuel ((c :: rest).drop pat.length)
    else
      c :: pyFormatAux pat rep fuel rest

/-- The pattern replaced by `template.format(transcript=...)`. -/
def transcriptField : String := "\x7btranscript\x7d"

/-- Python `template.format(transcript=value)` for templates whose only
replacement field is `\x7btranscript\x7d`: every occurrence of the field is
replaced by `value`. -/
def pyFormat (template value : String) : String :=
  ⟨pyFormatAux transcriptField.data value.data template.data.length template.data⟩

/-! ## Model resolver (`src/gemini.py`, `pick_available_model`) -/

/-- A provider model descriptor as used by `pick_available_model`:
a name and the list of supported generation methods. -/
structure ModelDescriptor where
  name : String
  supported_generation_methods : List String
deriving DecidableEq, Repr

/-- The ordered priority suffix list from `pick_available_model`. -/
def priority_suffixes : List String :=
  ["gemini-2.0-flash",
   "gemini-2.0-flash-lite",
   "gemini-1.5-flash-8b",
   "gemini-1.5-flash",
   "gemini-1.5-pro"]

/-- The capability filter of `pick_available_model`: keep models whose
`supported_generation_methods` contains `"generateContent"`. -/
def capable (m : ModelDescriptor) : Bool :=
  m.supported_generation_methods.contains "generateContent"

/-- The fixed default model name returned when listing fails or nothing is
available. -/
def defaultModelName : String := "gemini-1.5-flash-8b"

/-- The nested loop of `pick_available_model`: for each suffix in priority
order, scan the candidates in order and return the first candidate whose name
ends with that suffix. -/
def findBySuffix (candidates : List ModelDescriptor) :
    List String → Option String
  | [] => none
  | suf :: rest =>
    match candidates.find? (fun m => pyEndsWith m.name suf) with
    | some m => some m.name
    | none => findBySuffix candidates rest

/-- Console output produced by `pick_available_model`. -/
inductive ResolverLog where
  | usingModel (name : String)
  | usingFallback (name : String)
  | warnListFailed (err : String)
deriving DecidableEq, Repr

/-- `pick_available_model` from `src/gemini.py`.  The provider call
`genai.list_models()` is modelled by the `listing` argument: `.error e` is the
listing call raising exception `e`, `.ok available` is a successful listing.
Returns the log lines printed and the chosen model name. -/
def pick_available_model (listing : Except String (List ModelDescriptor)) :
    List ResolverLog × String :=
  match listing with
  | .error e => ([.warnListFailed e], defaultModelName)
  | .ok available =>
    let candidates := available.filter capable
    match findBySuffix candidates priority_suffixes with
    | some nm => ([.usingModel nm], nm)
    | none =>
      match candidates with
      | c :: _ => ([.usingFallback c.name], c.name)
      | [] => ([], defaultModelName)

/-! ## Poll-until-done loop (`src/chatgpt.py`, `run_thread`) -/

/-- A text content block of a thread message
(`message.content[i].text.value`). -/
structure TextBlock where
  value : String
deriving DecidableEq, Repr

/-- A thread message: an ordered list of content blocks. -/
structure ThreadMessage where
  content : List TextBlock
deriving DecidableEq, Repr

/-- The fatal statuses tested by `run_thread`:
`run_status.status in ["failed", "cancelled", "expired"]`. -/
def isFatalStatus (s : String) : Bool :=
  s = "failed" || s = "cancelled" || s = "expired"

/-- Observable events of the polling loop: a status fetch
(`client.beta.threads.runs.retrieve`) and a `time.sleep` with its duration
in seconds. -/
inductive PollEvent where
  | fetch (status : String)
  | sleep (seconds : Nat)
deriving DecidableEq, Repr

/-- How the polling loop finishes: `done t` models breaking out of the loop on
`"completed"` and returning `messages.data[0].content[0].text.value`
(extracted by `firstTextOfLatest`); `exitFatal s` models `sys.exit(1)` on a
fatal status `s`. -/
inductive PollOutcome where
  | done (text : Option String)
  | exitFatal (status : String)
deriving DecidableEq, Repr

/-- `messages.data[0].content[0].text.value`: the first text block of the
latest message (the provider lists messages newest first).  `none` models the
Python expression raising `IndexError`. -/
def firstTextOfLatest (msgs : List ThreadMessage) : Option String :=
  match msgs with
  | [] => none
  | m :: _ =>
    match m.content with
    | [] => none
    | b :: _ => some b.value

/-- The `while True` polling loop of `run_thread`.  The provider's answer to
the `k`-th status fetch (counting from 0) is `statuses k`; `msgs` is the
thread's message list read after completion.  The loop itself is unbounded, so
it is embedded with explicit fuel: the result is the list of events performed
together with `some` outcome if the loop finished within `fuel` iterations,
and `none` if the fuel ran out with the loop still running.  Each iteration
fetches the status; on `"completed"` it stops and returns the extracted text,
on a fatal status it exits, and otherwise it sleeps 2 seconds and iterates. -/
def run_thread (statuses : Nat → String) (msgs : List ThreadMessage) :
    Nat → Nat → List PollEvent × Option PollOutcome
  | 0, _ => ([], none)
  | fuel + 1, k =>
    let s := statuses k
    if s = "completed" then
      ([.fetch s], some (.done (firstTextOfLatest msgs)))
    else if isFatalStatus s then
      ([.fetch s], some (.exitFatal s))
    else
      let r := run_thread statuses msgs fuel (k + 1)
      (.fetch s :: .sleep 2 :: r.1, r.2)

/-- Number of status fetches in a poll event trace. -/
def countFetches (evs : List PollEvent) : Nat :=
  evs.countP (fun e => match e with | .fetch _ => true | _ => false)

/-! ## File uploaders (`upload_file` in both scripts) -/

/-- Observable events of `upload_file`: console output, `sys.exit`, the local
MIME sniff, and the remote upload call (`client.files.create` /
`genai.upload_file`) — the only network call the function makes. -/
inductive UpEvent where
  | logLine (s : String)
  | exitProc (code : Nat)
  | sniffMime (path : String)
  | netUpload (path : String) (mime : Option String)
deriving DecidableEq, Repr

/-- The remote upload call is the only network call in `upload_file`. -/
def isNetworkCall : UpEvent → Bool
  | .netUpload _ _ => true
  | _ => false

/-- Python truthiness test `not mime_type` for an optional string: true for
`None` and for the empty string. -/
def pyFalsy : Option String → Bool
  | none => true
  | some s => s = ""

/-- `upload_file` from `src/chatgpt.py`.  The filesystem is modelled by the
predicate `pathExists`.  Returns the events performed and whether a remote
file was produced. -/
def chatgpt_upload_file (pathExists : String → Bool) (path : String) :
    List UpEvent × Bool :=
  if pathExists path then
    ([.logLine ("Uploading file: " ++ path ++ "..."),
      .netUpload path none], true)
  else
    ([.logLine ("Error: File not found at " ++ path), .exitProc 1], false)

/-- `upload_file` from `src/gemini.py`.  `sniff` models
`magic.from_file(path, mime=True)` and `guess` models the first component of
`mimetypes.guess_type(path)`; a `none` or empty-string result is falsy.
Returns the events performed and the MIME type passed to the upload (or
`none` if the process exited before uploading). -/
def gemini_upload_file (pathExists : String → Bool)
    (sniff guess : String → Option String) (path : String) :
    List UpEvent × Option String :=
  if pathExists path then
    let sniffed := sniff path
    let afterGuess := if pyFalsy sniffed then guess path else sniffed
    let mimeEvents :=
      if pyFalsy afterGuess then
        [UpEvent.logLine ("Could not determine mime type for " ++ path ++
          ". Defaulting to application/octet-stream.")]
      else []
    let mime :=
      if pyFalsy afterGuess then "application/octet-stream"
      else afterGuess.getD ""
    ([.logLine ("Uploading file: " ++ path ++ "..."), .sniffMime path] ++
       mimeEvents ++ [.netUpload path (some mime)], some mime)
  else
    ([.logLine ("Error: File not found at " ++ path), .exitProc 1], none)

/-! ## Orchestration (`main` in both scripts) -/

/-- The outcome of one task's model call, as injected faults for the cleanup
analysis: the call returns text normally, `run_thread` hits a fatal run status
and calls `sys.exit(1)` (which unwinds as `SystemExit` through `finally`), or
the task raises an unhandled exception. -/
inductive TaskOutcome where
  | ok (text : String)
  | fatalStatus (status : String)
  | raised (e : String)
deriving DecidableEq, Repr

/-- Observable resource events of `main`: creation and deletion of the remote
resources, and the per-task work. -/
inductive MainEvent where
  | uploadFile
  | createAssistant
  | createThread
  | runTask (n : Nat)
  | deleteFile
  | deleteAssistant
deriving DecidableEq, Repr

/-- How the process leaves `main`: a normal return, `sys.exit code`, or an
unhandled exception. -/
inductive ExitKind where
  | normal
  | exitCode (n : Nat)
  | exception (e : String)
deriving DecidableEq, Repr

/-- The exit signal produced by one task outcome, or `none` if the task
succeeded and control continues. -/
def taskSignal : TaskOutcome → Option ExitKind
  | .ok _ => none
  | .fatalStatus _ => some (.exitCode 1)
  | .raised e => some (.exception e)

/-- The `try` block shared by both `main` functions: run the three tasks in
order, stopping at the first one that exits or raises.  Returns the task
events performed and how the block was left. -/
def tryTasks (o1 o2 o3 : TaskOutcome) : List MainEvent × ExitKind :=
  match taskSignal o1 with
  | some ek => ([.runTask 1], ek)
  | none =>
    match taskSignal o2 with
    | some ek => ([.runTask 1, .runTask 2], ek)
    | none =>
      match taskSignal o3 with
      | some ek => ([.runTask 1, .runTask 2, .runTask 3], ek)
      | none => ([.runTask 1, .runTask 2, .runTask 3], .normal)

/-- `main` from `src/chatgpt.py`, starting after a successful upload: create
the assistant and thread, run the `try` block, and in `finally` delete the
uploaded file and then the assistant.  `sys.exit` and exceptions unwind
through `finally`, so the deletions happen on every exit of the block. -/
def chatgpt_main (o1 o2 o3 : TaskOutcome) : List MainEvent × ExitKind :=
  let r := tryTasks o1 o2 o3
  ([.uploadFile, .createAssistant, .createThread] ++ r.1 ++
     [.deleteFile, .deleteAssistant], r.2)

/-- `main` from `src/gemini.py`, starting after a successful upload: run the
`try` block and in `finally` delete the uploaded file.  No assistant or thread
exists on this path. -/
def gemini_main (o1 o2 o3 : TaskOutcome) : List MainEvent × ExitKind :=
  let r := tryTasks o1 o2 o3
  ([.uploadFile] ++ r.1 ++ [.deleteFile], r.2)

/-! ## Prompt chaining (task 2 and 3 prompts in both `main` functions) -/

/-- The prompts sent by the three tasks of `main` in `src/chatgpt.py`, given
the three prompt templates and the model's responses (`responses n` is the
text produced by the `(n+1)`-th `run_thread` call).  Task 1 sends the generate
template as is; tasks 2 and 3 send their templates with the task-1 transcript
interpolated. -/
def chatgpt_prompts_sent (generateTpl factualTpl plausibilityTpl : String)
    (responses : Nat → String) : List String :=
  let transcript := responses 0
  let formatted_prompt_factual := pyFormat factualTpl transcript
  let _factual_feedback := responses 1
  let formatted_prompt_plausibility := pyFormat plausibilityTpl transcript
  let _plausibility_feedback := responses 2
  [generateTpl, formatted_prompt_factual, formatted_prompt_plausibility]

/-- The prompts sent by the three tasks of `main` in `src/gemini.py`; the
chaining is identical to the chatgpt script (task 3 merely omits the file
attachment). -/
def gemini_prompts_sent (generateTpl factualTpl plausibilityTpl : String)
    (responses : Nat → String) : List String :=
  let transcript := responses 0
  let formatted_prompt_factual := pyFormat factualTpl transcript
  let _factual_feedback := responses 1
  let formatted_prompt_plausibility := pyFormat plausibilityTpl transcript
  let _plausibility_feedback := responses 2
  [generateTpl, formatted_prompt_factual, formatted_prompt_plausibility]

end MdtGenai

namespace MdtGenai

/-! ## Demonstration inputs used by witnesses -/

/-- A concrete model listing: one incapable model and two capable ones, with
the lower-priority name (`gemini-1.5-pro`, priority index 4) listed before the
higher-priority one (`gemini-1.5-flash-8b`, priority index 2). -/
def demoModels : List ModelDescriptor :=
  [⟨"models/embedding-001", ["embedContent"]⟩,
   ⟨"models/gemini-1.5-pro", ["generateContent"]⟩,
   ⟨"models/gemini-1.5-flash-8b", ["generateContent"]⟩]

/-- The status sequence `queued, in_progress, in_progress, completed`. -/
def statuses3 : Nat → String
  | 0 => "queued"
  | 1 => "in_progress"
  | 2 => "in_progress"
  | _ => "completed"

/-- A status sequence that becomes `failed` on the second fetch. -/
def statusesFail2 : Nat → String
  | 0 => "queued"
  | _ => "failed"

/-- The stub completion strategy of the end-to-end scenario: responses
`T1`, `T2`, `T3` in order. -/
def stubResponses : Nat → String :=
  fun n => if n = 0 then "T1" else if n = 1 then "T2" else "T3"

/-! ## C5 -/

/-- C5: if listing the provider's models throws an error, pick_available_model
does not propagate the error: it logs a warning and returns the fixed default
model name `gemini-1.5-flash-8b`. -/
theorem C5_listing_error_returns_default (e : String) :
    pick_available_model (.error e) =
      ([.warnListFailed e], "gemini-1.5-flash-8b") := rfl

/-! ## C6 -/

/-- C6: for every transcript text produced by task 1, both the task-2 prompt
and the task-3 prompt are built by interpolating the task-1 transcript
(`responses 0`) into their templates, in both scripts; on the spec's stub
scenario the third prompt is `Check plausibility: T1`, not `... T2`: the
plausibility prompt never interpolates the task-2 output. -/
theorem C6_plausibility_uses_original_transcript :
    (∀ (g f p : String) (responses : Nat → String),
      chatgpt_prompts_sent g f p responses =
        [g, pyFormat f (responses 0), pyFormat p (responses 0)] ∧
      gemini_prompts_sent g f p responses =
        [g, pyFormat f (responses 0), pyFormat p (responses 0)]) ∧
    chatgpt_prompts_sent "Generate:" "Check facts: \x7btranscript\x7d"
        "Check plausibility: \x7btranscript\x7d" stubResponses =
      ["Generate:", "Check facts: T1", "Check plausibility: T1"] ∧
    gemini_prompts_sent "Generate:" "Check facts: \x7btranscript\x7d"
        "Check plausibility: \x7btranscript\x7d" stubResponses =
      ["Generate:", "Check facts: T1", "Check plausibility: T1"] := by
  refine ⟨fun g f p responses => ⟨rfl, rfl⟩, ?_, ?_⟩ <;> decide

/-! ## C10 -/

/-- C10: on any fetched status outside `completed`/`failed`/`cancelled`/
`expired` (for example `requires_action` or `incomplete`), `run_thread`
neither exits fatally nor returns: it sleeps 2 seconds and polls again. -/
theorem C10_unrecognized_status_polls_again (statuses : Nat → String)
    (msgs : List ThreadMessage) (fuel k : Nat)
    (h1 : statuses k ≠ "completed") (h2 : isFatalStatus (statuses k) = false) :
    run_thread statuses msgs (fuel + 1) k =
      (.fetch (statuses k) :: .sleep 2 ::
         (run_thread statuses msgs fuel (k + 1)).1,
       (run_thread statuses msgs fuel (k + 1)).2) := by
  simp [run_thread, h1, h2]

/-- Witness for C10 at the status `requires_action`. -/
theorem C10_witness :
    run_thread (fun _ => "requires_action") [] 2 0 =
      (.fetch "requires_action" :: .sleep 2 ::
         (run_thread (fun _ => "requires_action") [] 1 1).1,
       (run_thread (fun _ => "requires_action") [] 1 1).2) :=
  C10_unrecognized_status_polls_again (fun _ => "requires_action") [] 1 0
    (by decide) (by decide)

/-! ## C8 -/

/-- C8: for every local file path that does not exist, `upload_file` in both
scripts prints an error and exits with code 1, performing zero network
calls. -/
theorem C8_missing_file_no_network (pathExists : String → Bool)
    (sniff guess : String → Option String) (path : String)
    (h : pathExists path = false) :
    chatgpt_upload_file pathExists path =
      ([.logLine ("Error: File not found at " ++ path), .exitProc 1],
       false) ∧
    gemini_upload_file pathExists sniff guess path =
      ([.logLine ("Error: File not found at " ++ path), .exitProc 1],
       none) ∧
    (chatgpt_upload_file pathExists path).1.countP isNetworkCall = 0 ∧
    (gemini_upload_file pathExists sniff guess path).1.countP
        isNetworkCall = 0 := by
  simp [chatgpt_upload_file, gemini_upload_file, h, isNetworkCall,
    List.countP_cons, List.countP_nil]

/-- Witness for C8 on an empty filesystem. -/
theorem C8_witness :
    chatgpt_upload_file (fun _ => false) "missing.pdf" =
      ([.logLine "Error: File not found at missing.pdf", .exitProc 1],
       false) ∧
    gemini_upload_file (fun _ => false) (fun _ => none) (fun _ => none)
        "missing.pdf" =
      ([.logLine "Error: File not found at missing.pdf", .exitProc 1],
       none) ∧
    (chatgpt_upload_file (fun _ => false) "missing.pdf").1.countP
        isNetworkCall = 0 ∧
    (gemini_upload_file (fun _ => false) (fun _ => none) (fun _ => none)
        "missing.pdf").1.countP isNetworkCall = 0 :=
  C8_missing_file_no_network (fun _ => false) (fun _ => none) (fun _ => none)
    "missing.pdf" rfl

end MdtGenai

namespace MdtGenai

/-! ## C3 -/

/-- C3: on the status sequence `queued, in_progress, in_progress, completed`,
`run_thread` performs exactly 4 status fetches with a 2-second sleep between
consecutive fetches, then stops and returns the first text content block of
the latest message in the thread.  The fuel offset shows the behaviour is
independent of any remaining loop allowance. -/
theorem C3_poll_sequence (msgs : List ThreadMessage) (fuel : Nat) :
    run_thread statuses3 msgs (fuel + 4) 0 =
      ([.fetch "queued", .sleep 2, .fetch "in_progress", .sleep 2,
        .fetch "in_progress", .sleep 2, .fetch "completed"],
       some (.done (firstTextOfLatest msgs))) ∧
    countFetches (run_thread statuses3 msgs (fuel + 4) 0).1 = 4 := by
  have h : run_thread statuses3 msgs (fuel + 4) 0 =
      ([.fetch "queued", .sleep 2, .fetch "in_progress", .sleep 2,
        .fetch "in_progress", .sleep 2, .fetch "completed"],
       some (.done (firstTextOfLatest msgs))) := by
    simp [run_thread, statuses3, isFatalStatus]
  refine ⟨h, ?_⟩
  rw [h]
  rfl

/-! ## C4 -/

/-- A fatal status is never the string `completed`. -/
theorem fatal_ne_completed (s : String) (h : isFatalStatus s = true) :
    s ≠ "completed" := by
  intro he
  rw [he] at h
  simp [isFatalStatus] at h

/-- Generalized form of C4 over the loop's starting fetch index `k`:
if the first `n` fetches from `k` are non-terminal and fetch `k + n` is
fatal, the loop exits with that status after exactly `n + 1` fetches. -/
theorem run_thread_fatal_general (statuses : Nat → String)
    (msgs : List ThreadMessage) :
    ∀ (n fuel k : Nat), n < fuel →
    (∀ j, j < n → statuses (k + j) ≠ "completed" ∧
      isFatalStatus (statuses (k + j)) = false) →
    isFatalStatus (statuses (k + n)) = true →
    (run_thread statuses msgs fuel k).2 =
      some (.exitFatal (statuses (k + n))) ∧
    countFetches (run_thread statuses msgs fuel k).1 = n + 1 := by
  intro n
  induction n with
  | zero =>
    intro fuel k hn hpre hfat
    obtain ⟨f, rfl⟩ : ∃ f, fuel = f + 1 :=
      ⟨fuel - 1, by omega⟩
    rw [Nat.add_zero] at hfat
    have hne := fatal_ne_completed _ hfat
    simp [run_thread, hne, hfat, countFetches]
  | succ n ih =>
    intro fuel k hn hpre hfat
    obtain ⟨f, rfl⟩ : ∃ f, fuel = f + 1 :=
      ⟨fuel - 1, by omega⟩
    have h0 := hpre 0 (Nat.succ_pos n)
    rw [Nat.add_zero] at h0
    have hrec := ih f (k + 1) (by omega)
      (fun j hj => by
        have := hpre (j + 1) (by omega)
        rwa [show k + (j + 1) = k + 1 + j by omega] at this)
      (by rwa [show k + 1 + n = k + (n + 1) by omega])
    rw [show k + 1 + n = k + (n + 1) by omega] at hrec
    simp [run_thread, h0.1, h0.2, countFetches] at hrec ⊢
    exact hrec

/-- C4: if the first `n` status fetches are non-terminal and fetch `n`
(0-based) returns one of `failed`, `cancelled`, `expired`, `run_thread` exits
fatally with that status immediately after that fetch, having performed
exactly `n + 1` fetches and no more; for a failure on the second check
(`n = 1`), exactly 2 fetches occur. -/
theorem C4_fatal_status_immediate_exit (statuses : Nat → String)
    (msgs : List ThreadMessage) (n fuel : Nat) (hn : n < fuel)
    (hpre : ∀ j, j < n → statuses j ≠ "completed" ∧
      isFatalStatus (statuses j) = false)
    (hfat : isFatalStatus (statuses n) = true) :
    (run_thread statuses msgs fuel 0).2 =
      some (.exitFatal (statuses n)) ∧
    countFetches (run_thread statuses msgs fuel 0).1 = n + 1 := by
  have := run_thread_fatal_general statuses msgs n fuel 0 hn
    (fun j hj => by simpa using hpre j hj) (by simpa using hfat)
  simpa using this

/-- Witness for C4: a run that becomes `failed` on the second fetch performs
exactly 2 fetches and exits with status `failed`. -/
theorem C4_witness :
    (run_thread statusesFail2 [] 10 0).2 =
      some (.exitFatal "failed") ∧
    countFetches (run_thread statusesFail2 [] 10 0).1 = 2 :=
  C4_fatal_status_immediate_exit statusesFail2 [] 1 10 (by omega)
    (by decide) (by decide)

/-! ## C7 -/

/-- C7: the polling loop has no timeout: on a status sequence that never
reaches a terminal status, `run_thread` never finishes — for every fuel bound
and starting index the loop is still running when the fuel runs out. -/
theorem C7_never_terminal_never_returns (statuses : Nat → String)
    (msgs : List ThreadMessage)
    (h : ∀ n, statuses n ≠ "completed" ∧
      isFatalStatus (statuses n) = false) :
    ∀ fuel k, (run_thread statuses msgs fuel k).2 = none := by
  intro fuel
  induction fuel with
  | zero => intro k; rfl
  | succ f ih =>
    intro k
    simp [run_thread, (h k).1, (h k).2, ih (k + 1)]

/-- Witness for C7 at the constant status `in_progress`. -/
theorem C7_witness :
    (run_thread (fun _ => "in_progress") [] 7 0).2 = none :=
  C7_never_terminal_never_returns (fun _ => "in_progress") []
    (fun _ =>
      ⟨by show ("in_progress" : String) ≠ "completed"; decide,
       by show isFatalStatus "in_progress" = false; decide⟩) 7 0

/-! ## C2 -/

/-- C2: for every combination of the three task outcomes (success, fatal run
status unwinding as `sys.exit(1)`, unhandled exception), the `finally` block
deletes the uploaded file exactly once in both scripts and, on the assistant
path, also deletes the created assistant exactly once: both resources are
released before process exit regardless of task outcome. -/
theorem C2_cleanup_exactly_once (o1 o2 o3 : TaskOutcome) :
    ((chatgpt_main o1 o2 o3).1.count MainEvent.deleteFile = 1 ∧
     (chatgpt_main o1 o2 o3).1.count MainEvent.deleteAssistant = 1) ∧
    (gemini_main o1 o2 o3).1.count MainEvent.deleteFile = 1 := by
  rcases o1 with t1 | s1 | e1 <;> rcases o2 with t2 | s2 | e2 <;>
    rcases o3 with t3 | s3 | e3 <;>
    exact ⟨⟨rfl, rfl⟩, rfl⟩

end MdtGenai

namespace MdtGenai

/-! ## C1 -/

/-- If no candidate's name ends with any suffix of the list, the suffix scan
finds nothing. -/
theorem findBySuffix_eq_none (cs : List ModelDescriptor) (l : List String)
    (h : ∀ s ∈ l, ∀ m ∈ cs, pyEndsWith m.name s = false) :
    findBySuffix cs l = none := by
  induction l with
  | nil => rfl
  | cons s rest ih =>
    have hfind : cs.find? (fun m => pyEndsWith m.name s) = none := by
      rw [List.find?_eq_none]
      intro m hm
      simp [h s (by simp) m hm]
    simp only [findBySuffix, hfind]
    exact ih (fun sx hs m hm => h sx (by simp [hs]) m hm)

/-- A name returned by the suffix scan is the name of one of the
candidates. -/
theorem findBySuffix_some_mem (cs : List ModelDescriptor) (l : List String)
    (nm : String) (h : findBySuffix cs l = some nm) :
    ∃ m ∈ cs, nm = m.name := by
  induction l with
  | nil => simp [findBySuffix] at h
  | cons s rest ih =>
    simp only [findBySuffix] at h
    cases hfind : cs.find? (fun m => pyEndsWith m.name s) with
    | none =>
      rw [hfind] at h
      exact ih h
    | some m =>
      rw [hfind] at h
      cases h
      exact ⟨m, List.mem_of_find?_eq_some hfind, rfl⟩

/-- If suffix `i` is the earliest-indexed suffix matched by some candidate,
the suffix scan returns a name ending with suffix `i`. -/
theorem findBySuffix_earliest (cs : List ModelDescriptor) :
    ∀ (l : List String) (i : Nat) (hi : i < l.length),
    (∃ m ∈ cs, pyEndsWith m.name l[i] = true) →
    (∀ (j : Nat) (hj : j < l.length), j < i →
      ∀ m ∈ cs, pyEndsWith m.name l[j] = false) →
    ∃ nm, findBySuffix cs l = some nm ∧ pyEndsWith nm l[i] = true := by
  intro l
  induction l with
  | nil =>
    intro i hi
    simp at hi
  | cons s rest ih =>
    intro i hi hmatch hearlier
    cases i with
    | zero =>
      simp only [List.getElem_cons_zero] at hmatch ⊢
      have hsome : (cs.find? (fun m => pyEndsWith m.name s)).isSome := by
        rw [List.find?_isSome]
        obtain ⟨m, hm, hms⟩ := hmatch
        exact ⟨m, hm, hms⟩
      obtain ⟨m0, hfind⟩ := Option.isSome_iff_exists.mp hsome
      have hp := List.find?_some hfind
      refine ⟨m0.name, ?_, by simpa using hp⟩
      simp only [findBySuffix, hfind]
    | succ i =>
      have h0 : ∀ m ∈ cs, pyEndsWith m.name s = false := by
        intro m hm
        have := hearlier 0 (by simp) (Nat.succ_pos i) m hm
        simpa using this
      have hfind : cs.find? (fun m => pyEndsWith m.name s) = none := by
        rw [List.find?_eq_none]
        intro m hm
        simp [h0 m hm]
      have hi2 : i < rest.length := by
        simpa using hi
      have hm2 : ∃ m ∈ cs, pyEndsWith m.name rest[i] = true := by
        simpa using hmatch
      have he2 : ∀ (j : Nat) (hj : j < rest.length), j < i →
          ∀ m ∈ cs, pyEndsWith m.name rest[j] = false := by
        intro j hj hji m hm
        have := hearlier (j + 1) (by simpa using Nat.succ_lt_succ hj)
          (Nat.succ_lt_succ hji) m hm
        simpa using this
      obtain ⟨nm, hnm, hends⟩ := ih i hi2 hm2 he2
      refine ⟨nm, ?_, by simpa using hends⟩
      simp only [findBySuffix, hfind]
      exact hnm

/-- C1: for every successful model listing, `pick_available_model` returns:
if some capable candidate's name ends with a priority suffix, a name ending
in the earliest-indexed priority suffix matched by any candidate (suffixes
are scanned in priority order, all candidates against each); otherwise, if
the capable-candidate list is non-empty, the name of its first element in
provider order; otherwise the fixed default `gemini-1.5-flash-8b`. -/
theorem C1_pick_available_model_cases (available : List ModelDescriptor) :
    (∀ (i : Nat) (hi : i < priority_suffixes.length),
      (∃ m ∈ available.filter capable,
        pyEndsWith m.name priority_suffixes[i] = true) →
      (∀ (j : Nat) (hj : j < priority_suffixes.length), j < i →
        ∀ m ∈ available.filter capable,
          pyEndsWith m.name priority_suffixes[j] = false) →
      pyEndsWith (pick_available_model (.ok available)).2
        priority_suffixes[i] = true ∧
      ∃ m ∈ available.filter capable,
        (pick_available_model (.ok available)).2 = m.name) ∧
    ((∀ s ∈ priority_suffixes, ∀ m ∈ available.filter capable,
        pyEndsWith m.name s = false) →
      (∀ c cs, available.filter capable = c :: cs →
        (pick_available_model (.ok available)).2 = c.name) ∧
      (available.filter capable = [] →
        (pick_available_model (.ok available)).2 = defaultModelName)) := by
  constructor
  · intro i hi hmatch hearlier
    obtain ⟨nm, hfind, hends⟩ :=
      findBySuffix_earliest (available.filter capable) priority_suffixes
        i hi hmatch hearlier
    have hpick : (pick_available_model (.ok available)).2 = nm := by
      simp [pick_available_model, hfind]
    rw [hpick]
    exact ⟨hends, findBySuffix_some_mem _ _ _ hfind⟩
  · intro hnone
    have hfind :
        findBySuffix (available.filter capable) priority_suffixes = none :=
      findBySuffix_eq_none _ _ hnone
    constructor
    · intro c cs hcs
      rw [hcs] at hfind
      simp [pick_available_model, hfind, hcs]
    · intro hcs
      rw [hcs] at hfind
      simp [pick_available_model, hfind, hcs]

/-- Witness for C1 on `demoModels`: the earliest matched priority suffix is
index 2 (`gemini-1.5-flash-8b`), and the resolver picks that model even
though the lower-priority `gemini-1.5-pro` comes first in provider order. -/
theorem C1_witness :
    pyEndsWith (pick_available_model (.ok demoModels)).2
      "gemini-1.5-flash-8b" = true ∧
    ∃ m ∈ demoModels.filter capable,
      (pick_available_model (.ok demoModels)).2 = m.name :=
  (C1_pick_available_model_cases demoModels).1 2 (by decide) (by decide)
    (by decide)

/-! ## C9 -/

/-- C9: on the Gemini path, for every existing input file a MIME type is
always produced and the upload proceeds (exactly one network call): the MIME
type is the content-sniffing result when that is truthy, else the
extension-guess result when that is truthy, else
`application/octet-stream`. -/
theorem C9_mime_always_resolved (pathExists : String → Bool)
    (sniff guess : String → Option String) (path : String)
    (h : pathExists path = true) :
    (∃ mime, (gemini_upload_file pathExists sniff guess path).2 =
      some mime) ∧
    (gemini_upload_file pathExists sniff guess path).1.countP
        isNetworkCall = 1 ∧
    (pyFalsy (sniff path) = false →
      (gemini_upload_file pathExists sniff guess path).2 = sniff path) ∧
    (pyFalsy (sniff path) = true → pyFalsy (guess path) = false →
      (gemini_upload_file pathExists sniff guess path).2 = guess path) ∧
    (pyFalsy (sniff path) = true → pyFalsy (guess path) = true →
      (gemini_upload_file pathExists sniff guess path).2 =
        some "application/octet-stream") := by
  cases hsp : sniff path with
  | none =>
    cases hgp : guess path with
    | none =>
      simp [gemini_upload_file, h, hsp, hgp, pyFalsy, isNetworkCall,
        List.countP_cons, List.countP_nil, List.countP_append]
    | some g =>
      by_cases hg : g = ""
      · subst hg
        simp [gemini_upload_file, h, hsp, hgp, pyFalsy, isNetworkCall,
          List.countP_cons, List.countP_nil, List.countP_append]
      · simp [gemini_upload_file, h, hsp, hgp, pyFalsy, isNetworkCall, hg,
          List.countP_cons, List.countP_nil, List.countP_append]
  | some s =>
    by_cases hs : s = ""
    · subst hs
      cases hgp : guess path with
      | none =>
        simp [gemini_upload_file, h, hsp, hgp, pyFalsy, isNetworkCall,
          List.countP_cons, List.countP_nil, List.countP_append]
      | some g =>
        by_cases hg : g = ""
        · subst hg
          simp [gemini_upload_file, h, hsp, hgp, pyFalsy, isNetworkCall,
            List.countP_cons, List.countP_nil, List.countP_append]
        · simp [gemini_upload_file, h, hsp, hgp, pyFalsy, isNetworkCall,
            hg, List.countP_cons, List.countP_nil, List.countP_append]
    · simp [gemini_upload_file, h, hsp, pyFalsy, isNetworkCall, hs,
        List.countP_cons, List.countP_nil, List.countP_append]

/-- Witness for C9: a PDF whose content sniff succeeds is uploaded with the
sniffed MIME type. -/
theorem C9_witness :
    (∃ mime, (gemini_upload_file (fun _ => true)
        (fun _ => some "application/pdf") (fun _ => none) "a.pdf").2 =
      some mime) ∧
    (gemini_upload_file (fun _ => true) (fun _ => some "application/pdf")
        (fun _ => none) "a.pdf").1.countP isNetworkCall = 1 ∧
    (pyFalsy (some "application/pdf") = false →
      (gemini_upload_file (fun _ => true) (fun _ => some "application/pdf")
          (fun _ => none) "a.pdf").2 = some "application/pdf") ∧
    (pyFalsy (some "application/pdf") = true → pyFalsy none = false →
      (gemini_upload_file (fun _ => true) (fun _ => some "application/pdf")
          (fun _ => none) "a.pdf").2 = none) ∧
    (pyFalsy (some "application/pdf") = true → pyFalsy none = true →
      (gemini_upload_file (fun _ => true) (fun _ => some "application/pdf")
          (fun _ => none) "a.pdf").2 =
        some "application/octet-stream") :=
  C9_mime_always_resolved (fun _ => true) (fun _ => some "application/pdf")
    (fun _ => none) "a.pdf" rfl

end MdtGenai
